import Mathlib

/-!
Verification development for the remote log retrieval service (`src/app.py`).

The source is a Flask application that resolves a (project, module, optional
date) triple from XML registries, locates and fetches a remote log file over
SFTP, optionally zips it, and serves it.  This file shallowly embeds the
functions relevant to the specification claims:

* `safe_parse_date` (app.py lines 110-122) with its strict-format chain and
  lenient fallback,
* `sftp_find_latest_log` (lines 104-135) over an abstract remote directory,
* the config/credential resolution of the `/download` route (lines 161-180),
* the locate / fetch / archive phases of the route (lines 185-231) as
  functions producing event traces, result values and local-filesystem
  effects, parameterised by an abstract transport behaviour.
-/

namespace LogApp

/-- A calendar date with no time component (`datetime.date`). -/
structure Date where
  year : Nat
  month : Nat
  day : Nat
deriving DecidableEq

/-- The only date error the source raises: the `ValueError` at app.py line 122. -/
inductive DateError
  | invalidDateFormat
deriving DecidableEq

/-- Split a character list at every separator satisfying `p`, keeping empty
segments, mirroring Python string splitting / regex field separation. -/
def splitWhen (p : Char → Bool) : List Char → List (List Char)
  | [] => [[]]
  | c :: cs =>
    let r := splitWhen p cs
    if p c then [] :: r
    else
      match r with
      | [] => [[c]]
      | h :: t => (c :: h) :: t

/-- Numeric value of a list of decimal digit characters. -/
def digitsVal (l : List Char) : Nat :=
  l.foldl (fun n c => n * 10 + (c.toNat - 48)) 0

/-- A numeric field of between `minLen` and `maxLen` decimal digits, as
matched by CPython `_strptime`'s regexes for `%Y` (4,4), `%m` and `%d` (1,2). -/
def numField (l : List Char) (minLen maxLen : Nat) : Option Nat :=
  if minLen ≤ l.length && l.length ≤ maxLen && l.all Char.isDigit then
    some (digitsVal l)
  else none

/-- Gregorian leap year test, as used by `datetime`'s day-of-month validation. -/
def isLeap (y : Nat) : Bool :=
  (y % 4 == 0 && y % 100 != 0) || y % 400 == 0

/-- Number of days in a month, as validated by `datetime.date`. -/
def daysInMonth (y m : Nat) : Nat :=
  if m == 2 then (if isLeap y then 29 else 28)
  else if m == 4 || m == 6 || m == 9 || m == 11 then 30
  else 31

/-- Field order of a strict date format: year-month-day or day-month-year. -/
inductive FmtOrder
  | ymd
  | dmy
deriving DecidableEq

/-- `datetime.strptime(s, fmt).date()` for the four formats of app.py line
111: a three-field date with a fixed separator, a 4-digit year, 1-2 digit
month and day, full-string match, with `datetime`'s range validation
(month 1-12, day within the month, year at least 1). -/
def strptimeWith (order : FmtOrder) (sep : Char) (s : String) : Option Date :=
  match splitWhen (fun c => c == sep) s.data with
  | [a, b, c] =>
    let (ys, ms, ds) :=
      match order with
      | .ymd => (a, b, c)
      | .dmy => (c, b, a)
    match numField ys 4 4, numField ms 1 2, numField ds 1 2 with
    | some y, some m, some d =>
      if 1 ≤ y && 1 ≤ m && m ≤ 12 && 1 ≤ d && d ≤ daysInMonth y m then
        some ⟨y, m, d⟩
      else none
    | _, _, _ => none
  | _ => none

/-- The ordered strict-format chain of app.py line 111:
`("%Y-%m-%d", "%d-%m-%Y", "%Y/%m/%d", "%d/%m/%Y")`. -/
def strictFormats : List (FmtOrder × Char) :=
  [(.ymd, '-'), (.dmy, '-'), (.ymd, '/'), (.dmy, '/')]

/-- First strict format that parses `s`, in the fixed order of app.py line 111. -/
def tryStrictFormats (s : String) : Option Date :=
  strictFormats.findSome? (fun oc => strptimeWith oc.1 oc.2 s)

/-- Modelled from the spec: the lenient natural-language fallback parser
(`dateutil.parser.parse`, an external library not part of `src/`).  The spec
describes it as a lenient parser that resolves an ambiguous numeric
day/month pair according to its day-first configuration; the library's
default, when no `dayfirst` argument is passed, is month-before-day.  The
model accepts a three-field numeric input `A<sep>B<sep>YYYY` with `-`, `/`
or `.` separators: when `dayfirst` is false the first field is read as the
month when possible (swapping only if it cannot be a month), and dually when
`dayfirst` is true; it fails on inputs without numeric date fields, such as
`"not-a-date"`. -/
def dateutil_parse (dayfirst : Bool) (s : String) : Option Date :=
  match splitWhen (fun c => c == '-' || c == '/' || c == '.') s.data with
  | [a, b, c] =>
    match numField a 1 2, numField b 1 2, numField c 4 4 with
    | some x, some y, some yr =>
      let (m, d) :=
        if dayfirst then (if 1 ≤ y && y ≤ 12 then (y, x) else (x, y))
        else (if 1 ≤ x && x ≤ 12 then (x, y) else (y, x))
      if 1 ≤ yr && 1 ≤ m && m ≤ 12 && 1 ≤ d && d ≤ daysInMonth yr m then
        some ⟨yr, m, d⟩
      else none
    | _, _, _ => none
  | _ => none

instance {ε α : Type} [DecidableEq ε] [DecidableEq α] : DecidableEq (Except ε α) := fun x y =>
  match x, y with
  | .ok a, .ok b =>
    if h : a = b then .isTrue (by subst h; rfl)
    else .isFalse (by intro hc; cases hc; exact h rfl)
  | .ok _, .error _ => .isFalse (by intro hc; cases hc)
  | .error _, .ok _ => .isFalse (by intro hc; cases hc)
  | .error a, .error b =>
    if h : a = b then .isTrue (by subst h; rfl)
    else .isFalse (by intro hc; cases hc; exact h rfl)

/-- `safe_parse_date` (app.py lines 110-122): try the strict formats in
order; if none matches, fall back to `dateparser.parse(date_str)` — called
with no `dayfirst` argument, hence the library default (month-first) — and
raise `ValueError` (invalid date format) if that also fails. -/
def safe_parse_date (date_str : String) : Except DateError Date :=
  match tryStrictFormats date_str with
  | some d => .ok d
  | none =>
    match dateutil_parse false date_str with
    | some d => .ok d
    | none => .error .invalidDateFormat

/-- Python truthiness of an optional string (`if date_str:`, `or` chains):
`None` and the empty string are falsy. -/
def strTruthy : Option String → Bool
  | none => false
  | some s => s != ""

/-- Python `s.startswith(pre)`. -/
def pyStartsWith (s pre : String) : Bool :=
  List.isPrefixOf pre.data s.data

/-- Python `s.endswith(suf)`. -/
def pyEndsWith (s suf : String) : Bool :=
  List.isSuffixOf suf.data s.data

/-- `os.path.join(d, f)` for the two-argument uses in the source. -/
def path_join (d f : String) : String :=
  if pyStartsWith f "/" then f
  else if d == "" || pyEndsWith d "/" then d ++ f
  else d ++ "/" ++ f

/-- `os.path.basename(p)`: the part after the last slash. -/
def basename (p : String) : String :=
  match (splitWhen (fun c => c == '/') p.data).getLast? with
  | some l => ⟨l⟩
  | none => ""

/-- Decimal digit character. -/
def digitChar (n : Nat) : Char := Char.ofNat (48 + n)

/-- Two-digit zero-padded rendering, as `strftime` produces for `%d`/`%m`. -/
def pad2 (n : Nat) : String := ⟨[digitChar (n / 10 % 10), digitChar (n % 10)]⟩

/-- Four-digit zero-padded rendering, as `strftime` produces for `%Y` on the
years (1-9999) that `safe_parse_date` can return. -/
def pad4 (n : Nat) : String :=
  ⟨[digitChar (n / 1000 % 10), digitChar (n / 100 % 10),
    digitChar (n / 10 % 10), digitChar (n % 10)]⟩

/-- `d.strftime("%d-%m-%Y")` (app.py line 126). -/
def strftime_dmy (d : Date) : String :=
  pad2 d.day ++ "-" ++ pad2 d.month ++ "-" ++ pad4 d.year

/-- Abstract remote directory: the filenames returned by
`sftp.listdir(dirpath)` in listing order, and `st_mtime` as reported by
`sftp.stat` for each full path. -/
structure SftpDir where
  files : List String
  mtime : String → Nat

/-- Insert `x` into a list sorted by `key` in descending order, after every
element with a strictly greater key and before equal keys that came later in
the original list — the placement a stable descending sort gives `x`. -/
def insertDesc (key : String → Nat) (x : String) : List String → List String
  | [] => [x]
  | y :: ys => if key y > key x then y :: insertDesc key x ys else x :: y :: ys

/-- Stable descending sort by `key`: the effect of Python
`lst.sort(key=key, reverse=True)` (app.py line 134), where elements with
equal keys keep their original relative order. -/
def sortDesc (key : String → Nat) : List String → List String
  | [] => []
  | x :: xs => insertDesc key x (sortDesc key xs)

/-- The dated candidate filter of app.py line 127:
filenames starting with `"<base>-<DD-MM-YYYY>.log"`. -/
def datedCandidates (files : List String) (base : String) (d : Date) : List String :=
  files.filter (fun f => pyStartsWith f (base ++ "-" ++ strftime_dmy d ++ ".log"))

/-- The dateless candidate filter of app.py line 129:
filenames starting with `base` and ending with `".log"`. -/
def datelessCandidates (files : List String) (base : String) : List String :=
  files.filter (fun f => pyStartsWith f base && pyEndsWith f ".log")

/-- `sftp_find_latest_log` (app.py lines 104-135) over an abstract directory:
return `None` on an empty listing; otherwise, if a (truthy) date string is
given, parse it (propagating the `ValueError`) and filter by the dated
prefix, else filter by base-prefix and `.log`-suffix; return `None` if no
candidate, else sort candidates by `st_mtime` of their joined path,
descending, and return the joined path of the first. -/
def sftp_find_latest_log (dir : SftpDir) (dirpath base : String)
    (date_str : Option String) : Except DateError (Option String) :=
  if dir.files.isEmpty then .ok none
  else do
    let candidates ←
      if strTruthy date_str then do
        let d ← (safe_parse_date (date_str.getD ""))
        pure (datedCandidates dir.files base d)
      else
        pure (datelessCandidates dir.files base)
    if candidates.isEmpty then pure none
    else
      pure (some (path_join dirpath
        ((sortDesc (fun f => dir.mtime (path_join dirpath f)) candidates).headD "")))

/-- The three-file remote directory of the specification's worked example.
`app-01-04-2024.log` has the newest modification time; the rotated file
`app-03-04-2024.log.1` the oldest. -/
def exDir : SftpDir where
  files := ["app-01-04-2024.log", "app-02-04-2024.log", "app-03-04-2024.log.1"]
  mtime := fun p =>
    if p == "/var/log/app/app-01-04-2024.log" then 300
    else if p == "/var/log/app/app-02-04-2024.log" then 200
    else if p == "/var/log/app/app-03-04-2024.log.1" then 100
    else 0

example : sftp_find_latest_log exDir "/var/log/app" "app" (some "03-04-2024")
    = .ok (some "/var/log/app/app-03-04-2024.log.1") := by decide
example : sftp_find_latest_log exDir "/var/log/app" "app" none
    = .ok (some "/var/log/app/app-01-04-2024.log") := by decide
example : sftp_find_latest_log ⟨[], fun _ => 0⟩ "/var/log/app" "app" none
    = .ok none := by decide
example : sftp_find_latest_log exDir "/var/log/app" "app" (some "not-a-date")
    = .error .invalidDateFormat := by decide

/-- A per-module entry of `config.xml` as read by `parse_config` (app.py
lines 59-67): each attribute may be absent (`None`). -/
structure ModuleConfig where
  server : Option String
  user : Option String
  path : Option String
  base : Option String
deriving DecidableEq

/-- A per-project entry of `credentials.xml` as read by `parse_credentials`
(app.py lines 77-85). -/
structure Cred where
  host : Option String
  user : Option String
  password : Option String
deriving DecidableEq

/-- Python `a or b` on optional strings: `a` when truthy, else `b`. -/
def pyOr (a b : Option String) : Option String :=
  if strTruthy a then a else b

/-- Outcome of the config/credential step of the `/download` route
(app.py lines 161-180). -/
inductive ResolveResult
  | missingParams
  | projectNotFound
  | moduleNotFound
  | resolved (host user password dirpath base : Option String)
deriving DecidableEq

/-- The config/credential resolution of the `/download` route (app.py lines
161-180): require truthy `project` and `module` query parameters; return the
404 error unless the project is present in **both** registries; look up the
module; then take `host = module server or cred host`,
`user = module user or cred user`, `password = cred password`.  No
emptiness check is performed on the resolved `host`/`user`. -/
def resolve_config (config : String → Option (String → Option ModuleConfig))
    (creds : String → Option Cred) (project module : Option String) : ResolveResult :=
  if !strTruthy project || !strTruthy module then .missingParams
  else
    let p := project.getD ""
    let m := module.getD ""
    match config p, creds p with
    | some mods, some cred =>
      match mods m with
      | some mc =>
        .resolved (pyOr mc.server cred.host) (pyOr mc.user cred.user)
          cred.password mc.path mc.base
      | none => .moduleNotFound
    | some _, none => .projectNotFound
    | none, _ => .projectNotFound

/-- Observable transport-lifecycle events of one phase of the route. -/
inductive Ev
  | transportCreate
  | transportConnect
  | sftpOpen
  | listDir
  | dateParse
  | sftpCloseTry
  | transportCloseTry
deriving DecidableEq

/-- How far `sftp_connect` (app.py lines 91-101) gets: the
`paramiko.Transport((host, 22))` constructor may raise; `transport.connect`
may raise after the transport object (and its socket) exists;
`SFTPClient.from_transport` may raise after the transport is connected;
or everything succeeds. -/
inductive ConnectOutcome
  | transportCtorFails
  | connectFails
  | sftpClientFails
  | ok
deriving DecidableEq

/-- The events `sftp_connect` produces for each outcome. -/
def sftp_connect_trace : ConnectOutcome → List Ev
  | .transportCtorFails => []
  | .connectFails => [.transportCreate]
  | .sftpClientFails => [.transportCreate, .transportConnect]
  | .ok => [.transportCreate, .transportConnect, .sftpOpen]

/-- The `finally: try: sftp.close(); transport.close() except Exception:
pass` block (app.py lines 195-200 and 217-222).  When `bound` is false the
names `sftp`/`transport` were never assigned, so `sftp.close()` raises
`NameError` at once, swallowed by the bare `except`: no close call happens.
When `sftp.close()` itself raises, the exception is swallowed but
`transport.close()` is never reached.  The block never lets an exception
escape. -/
def close_block (bound : Bool) (sftpCloseRaises : Bool) : List Ev :=
  if !bound then []
  else if sftpCloseRaises then [.sftpCloseTry]
  else [.sftpCloseTry, .transportCloseTry]

/-- Abstract behaviour of the remote host and of `close()` during one
locate phase. -/
structure SessionFate where
  connect : ConnectOutcome
  opRaises : Bool
  sftpCloseRaises : Bool
  transportCloseRaises : Bool
deriving DecidableEq

/-- Result of the locate phase of the route (app.py lines 185-204). -/
inductive LocateResult
  | httpError400
  | httpError500
  | notFound
  | found (path : String)
deriving DecidableEq

/-- The locate phase of `/download` (app.py lines 185-204): call
`sftp_connect`, then `sftp_find_latest_log`; a `ValueError` (invalid date)
becomes the 400 response, any other exception the 500 response; the
`finally` block runs in every case, but when `sftp_connect` raised the names
are unbound, so no close call is made; when the locator returns `None` the
route later answers 404 (`notFound`).  The trace records transport events in
program order; `fate.opRaises` stands for `listdir`/`stat` raising. -/
def locate_phase (fate : SessionFate) (dir : SftpDir) (dirpath base : String)
    (date_str : Option String) : List Ev × LocateResult :=
  match fate.connect with
  | .transportCtorFails => ([], .httpError500)
  | .connectFails => ([.transportCreate], .httpError500)
  | .sftpClientFails => ([.transportCreate, .transportConnect], .httpError500)
  | .ok =>
    let openEvs : List Ev := [.transportCreate, .transportConnect, .sftpOpen]
    let closeEvs := close_block true fate.sftpCloseRaises
    if fate.opRaises then (openEvs ++ closeEvs, .httpError500)
    else
      let opEvs : List Ev :=
        [.listDir] ++
          (if !dir.files.isEmpty && strTruthy date_str then [.dateParse] else [])
      match sftp_find_latest_log dir dirpath base date_str with
      | .error _ => (openEvs ++ opEvs ++ closeEvs, .httpError400)
      | .ok none => (openEvs ++ opEvs ++ closeEvs, .notFound)
      | .ok (some p) => (openEvs ++ opEvs ++ closeEvs, .found p)

/-- How `sftp.get(remote_file, local_temp)` ends: success, failure before
anything is written locally, or failure after a partial local write. -/
inductive FetchOutcome
  | ok
  | failsNoWrite
  | failsMidWrite
deriving DecidableEq

/-- Abstract behaviour of the remote host and of `close()` during the
fetch phase. -/
structure FetchFate where
  connect : ConnectOutcome
  outcome : FetchOutcome
  sftpCloseRaises : Bool
  transportCloseRaises : Bool
deriving DecidableEq

/-- Result of the fetch phase of the route (app.py lines 209-222). -/
inductive FetchResult
  | httpError500
  | fetched
deriving DecidableEq

/-- Update the abstract local filesystem (existence predicate on paths). -/
def setFile (fs : String → Bool) (p : String) (b : Bool) : String → Bool :=
  fun q => if q == p then b else fs q

/-- The fetch phase of `/download` (app.py lines 209-222): reconnect and
`sftp.get` the remote file to `local_temp`; on any exception return the 500
response.  In this phase the names `sftp`/`transport` are still bound (to
the closed locate-phase session) even when the new connect fails, so the
`finally` block always attempts the close calls.  On a mid-write failure the
partially-written file is **not** removed: the route returns the error with
the file still present. -/
def fetch_phase (fate : FetchFate) (local_temp : String) (fs : String → Bool) :
    List Ev × (String → Bool) × FetchResult :=
  let closeEvs := close_block true fate.sftpCloseRaises
  match fate.connect with
  | .transportCtorFails => (closeEvs, fs, .httpError500)
  | .connectFails => ([.transportCreate] ++ closeEvs, fs, .httpError500)
  | .sftpClientFails =>
    ([.transportCreate, .transportConnect] ++ closeEvs, fs, .httpError500)
  | .ok =>
    let openEvs : List Ev := [.transportCreate, .transportConnect, .sftpOpen]
    match fate.outcome with
    | .ok => (openEvs ++ closeEvs, setFile fs local_temp true, .fetched)
    | .failsNoWrite => (openEvs ++ closeEvs, fs, .httpError500)
    | .failsMidWrite =>
      (openEvs ++ closeEvs, setFile fs local_temp true, .httpError500)

/-- `MAX_ZIP_MB` (app.py line 19). -/
def MAX_ZIP_MB : Nat := 20

/-- Outcome of the archive step: local filesystem after the step, the path
that will be served, whether it is a zip archive, and the names stored
inside the archive (empty when no archive was produced). -/
structure ArchiveOut where
  fs : String → Bool
  to_send : String
  isArchive : Bool
  zipContents : List String

/-- The archive step of `/download` (app.py lines 224-231): if the fetched
file is strictly larger than `MAX_ZIP_MB * 1024 * 1024` bytes,
`shutil.make_archive(local_temp, "zip", root_dir=dirname, base_dir=basename)`
creates `local_temp + ".zip"` containing exactly that file under its base
name, the original is removed, and the archive is served; otherwise the
original path is served unchanged. -/
def archive_decision (local_temp : String) (sizeBytes : Nat)
    (fs : String → Bool) : ArchiveOut :=
  if sizeBytes > MAX_ZIP_MB * 1024 * 1024 then
    let zip_path := local_temp ++ ".zip"
    { fs := setFile (setFile fs local_temp false) zip_path true
      to_send := zip_path
      isArchive := true
      zipContents := [basename local_temp] }
  else
    { fs := fs, to_send := local_temp, isArchive := false, zipContents := [] }

/-! ## Helper lemmas -/

lemma isEmpty_false_of_ne_nil {α : Type} {l : List α} (h : l ≠ []) :
    l.isEmpty = false := by
  cases l with
  | nil => exact absurd rfl h
  | cons a t => rfl

lemma mem_insertDesc (key : String → Nat) (x a : String) (l : List String) :
    a ∈ insertDesc key x l ↔ a = x ∨ a ∈ l := by
  induction l with
  | nil => simp [insertDesc]
  | cons y ys ih =>
    simp only [insertDesc]
    split
    · simp only [List.mem_cons, ih]
      tauto
    · simp only [List.mem_cons]

lemma mem_sortDesc (key : String → Nat) (a : String) (l : List String) :
    a ∈ sortDesc key l ↔ a ∈ l := by
  induction l with
  | nil => simp [sortDesc]
  | cons x xs ih => simp [sortDesc, mem_insertDesc, ih]

lemma insertDesc_ne_nil (key : String → Nat) (x : String) (l : List String) :
    insertDesc key x l ≠ [] := by
  cases l with
  | nil => simp [insertDesc]
  | cons y ys =>
    simp only [insertDesc]
    split <;> simp

lemma sortDesc_ne_nil (key : String → Nat) (l : List String) (h : l ≠ []) :
    sortDesc key l ≠ [] := by
  cases l with
  | nil => exact absurd rfl h
  | cons x xs => exact insertDesc_ne_nil key x (sortDesc key xs)

lemma headD_max_insertDesc (key : String → Nat) (x dflt : String)
    (l : List String) (h : ∀ a ∈ l, key a ≤ key (l.headD dflt)) :
    ∀ a ∈ insertDesc key x l, key a ≤ key ((insertDesc key x l).headD dflt) := by
  cases l with
  | nil =>
    intro a ha
    simp only [insertDesc, List.mem_singleton] at ha
    subst ha
    simp [insertDesc]
  | cons y ys =>
    intro a ha
    simp only [insertDesc] at ha ⊢
    by_cases hk : key y > key x
    · rw [if_pos hk] at ha ⊢
      simp only [List.headD_cons]
      rcases List.mem_cons.mp ha with rfl | hmem
      · exact le_refl _
      · rcases (mem_insertDesc key x a ys).mp hmem with rfl | hys
        · exact le_of_lt hk
        · have := h a (List.mem_cons_of_mem y hys)
          simpa using this
    · rw [if_neg hk] at ha ⊢
      simp only [List.headD_cons]
      push_neg at hk
      rcases List.mem_cons.mp ha with rfl | hmem
      · exact le_refl _
      · rcases List.mem_cons.mp hmem with rfl | hys
        · exact hk
        · have hy := h a (List.mem_cons_of_mem y hys)
          simp only [List.headD_cons] at hy
          exact le_trans hy hk

lemma sortDesc_headD_max (key : String → Nat) (dflt : String) (l : List String) :
    ∀ a ∈ l, key a ≤ key ((sortDesc key l).headD dflt) := by
  induction l with
  | nil => intro a ha; cases ha
  | cons x xs ih =>
    intro a ha
    have hinv : ∀ b ∈ sortDesc key xs, key b ≤ key ((sortDesc key xs).headD dflt) := by
      intro b hb
      exact ih b ((mem_sortDesc key b xs).mp hb)
    have hmax := headD_max_insertDesc key x dflt (sortDesc key xs) hinv
    show key a ≤ key ((insertDesc key x (sortDesc key xs)).headD dflt)
    apply hmax
    rw [mem_insertDesc, mem_sortDesc]
    rcases List.mem_cons.mp ha with rfl | hxs
    · exact Or.inl rfl
    · exact Or.inr hxs

lemma sortDesc_headD_mem (key : String → Nat) (dflt : String) (l : List String)
    (h : l ≠ []) : (sortDesc key l).headD dflt ∈ l := by
  have hne := sortDesc_ne_nil key l h
  rw [← mem_sortDesc key _ l]
  cases hsd : sortDesc key l with
  | nil => exact absurd hsd hne
  | cons a t => simp

lemma strTruthy_some_of_ne {s : String} (h : s ≠ "") :
    strTruthy (some s) = true := by
  simp [strTruthy, h]

lemma find_latest_dated (dir : SftpDir) (dirpath base ds : String) (d : Date)
    (hds : ds ≠ "") (hparse : safe_parse_date ds = .ok d)
    (hcand : datedCandidates dir.files base d ≠ []) :
    sftp_find_latest_log dir dirpath base (some ds)
      = .ok (some (path_join dirpath
          ((sortDesc (fun f => dir.mtime (path_join dirpath f))
            (datedCandidates dir.files base d)).headD ""))) := by
  have hfe : dir.files ≠ [] := by
    intro h
    exact hcand (by simp [datedCandidates, h])
  have h1 : dir.files.isEmpty = false := isEmpty_false_of_ne_nil hfe
  have h2 : strTruthy (some ds) = true := strTruthy_some_of_ne hds
  have h3 : (datedCandidates dir.files base d).isEmpty = false :=
    isEmpty_false_of_ne_nil hcand
  simp [sftp_find_latest_log, h1, h2, hparse, h3, Bind.bind, Except.bind, Pure.pure, Except.pure]

lemma find_latest_dateless (dir : SftpDir) (dirpath base : String)
    (hcand : datelessCandidates dir.files base ≠ []) :
    sftp_find_latest_log dir dirpath base none
      = .ok (some (path_join dirpath
          ((sortDesc (fun f => dir.mtime (path_join dirpath f))
            (datelessCandidates dir.files base)).headD ""))) := by
  have hfe : dir.files ≠ [] := by
    intro h
    exact hcand (by simp [datelessCandidates, h])
  have h1 : dir.files.isEmpty = false := isEmpty_false_of_ne_nil hfe
  have h3 : (datelessCandidates dir.files base).isEmpty = false :=
    isEmpty_false_of_ne_nil hcand
  simp [sftp_find_latest_log, h1, h3, strTruthy, Bind.bind, Except.bind, Pure.pure, Except.pure]

lemma find_latest_date_error (dir : SftpDir) (dirpath base ds : String)
    (hfe : dir.files ≠ []) (hds : ds ≠ "")
    (hparse : safe_parse_date ds = .error .invalidDateFormat) :
    sftp_find_latest_log dir dirpath base (some ds)
      = .error .invalidDateFormat := by
  have h1 : dir.files.isEmpty = false := isEmpty_false_of_ne_nil hfe
  have h2 : strTruthy (some ds) = true := strTruthy_some_of_ne hds
  simp [sftp_find_latest_log, h1, h2, hparse, Bind.bind, Except.bind]

/-! ## Claim theorems -/

/-- C4: `safe_parse_date` resolves `"2024-04-03"`, `"03-04-2024"` and
`"2024/04/03"` to the same calendar date, 3 April 2024, through the ordered
chain of strict formats; on `"not-a-date"` every strict format and the
lenient fallback fail, and the result is the invalid-date-format error. -/
theorem C4_date_resolution :
    safe_parse_date "2024-04-03" = .ok ⟨2024, 4, 3⟩ ∧
    safe_parse_date "03-04-2024" = .ok ⟨2024, 4, 3⟩ ∧
    safe_parse_date "2024/04/03" = .ok ⟨2024, 4, 3⟩ ∧
    tryStrictFormats "2024-04-03" = some ⟨2024, 4, 3⟩ ∧
    tryStrictFormats "03-04-2024" = some ⟨2024, 4, 3⟩ ∧
    tryStrictFormats "2024/04/03" = some ⟨2024, 4, 3⟩ ∧
    tryStrictFormats "not-a-date" = none ∧
    dateutil_parse false "not-a-date" = none ∧
    safe_parse_date "not-a-date" = .error .invalidDateFormat := by
  decide

/-- C8 counterexample: the source calls the lenient fallback with no
`dayfirst` configuration, so an ambiguous input that reaches the fallback is
read month-first, not day-first.  `"03.04.2024"` matches no strict format;
`safe_parse_date` resolves it to 4 March 2024 (first field read as the
month), while a day-first fallback would give 3 April 2024. -/
theorem C8_counterexample :
    tryStrictFormats "03.04.2024" = none ∧
    safe_parse_date "03.04.2024" = .ok ⟨2024, 3, 4⟩ ∧
    dateutil_parse true "03.04.2024" = some ⟨2024, 4, 3⟩ := by
  decide

/-- C8 amended: for date strings matching none of the strict formats, the
fallback parser is invoked with the library default, which prefers
month-before-day on ambiguous input: an ambiguous two-field input is read
with its first numeric field as the month (`"03.04.2024"` → 4 March,
`"05.06.2024"` → 6 May), swapping only when the first field cannot be a
month (`"14.03.2024"` → 14 March); day-first reading of `"03-04-2024"`
comes from the strict tier, not from the fallback. -/
theorem C8_amended_fallback_monthfirst :
    safe_parse_date "03.04.2024" = .ok ⟨2024, 3, 4⟩ ∧
    safe_parse_date "05.06.2024" = .ok ⟨2024, 5, 6⟩ ∧
    safe_parse_date "14.03.2024" = .ok ⟨2024, 3, 14⟩ ∧
    (∀ s : String, tryStrictFormats s = none →
      safe_parse_date s =
        match dateutil_parse false s with
        | some d => .ok d
        | none => .error .invalidDateFormat) := by
  refine ⟨by decide, by decide, by decide, ?_⟩
  intro s h
  simp [safe_parse_date, h]

/-- C8 amended, witness: the general fallback clause instantiated at
`"03.04.2024"`, whose strict-format hypothesis is discharged by evaluation. -/
theorem C8_amended_fallback_monthfirst_witness :
    safe_parse_date "03.04.2024" =
      match dateutil_parse false "03.04.2024" with
      | some d => .ok d
      | none => .error .invalidDateFormat :=
  C8_amended_fallback_monthfirst.2.2.2 "03.04.2024" (by decide)

/-- C1: Strategy A locate over a fixed remote listing.  A dated locate's
candidate set is exactly the filenames starting with
`"<base>-<DD-MM-YYYY>.log"`; a dateless locate's candidate set is exactly
the filenames starting with `base` and ending with `".log"`; among the
candidates the one with the greatest `st_mtime` is returned (joined to the
directory path); and on the worked example directory a dated locate for
`03-04-2024` returns `app-03-04-2024.log.1` while a dateless locate returns
the candidate with the newest modification time

(`app-01-04-2024.log`), not the lexically last one. -/
theorem C1_strategyA_locate :
    (∀ (files : List String) (base : String) (d : Date) (f : String),
      f ∈ datedCandidates files base d ↔
        f ∈ files ∧ pyStartsWith f (base ++ "-" ++ strftime_dmy d ++ ".log") = true) ∧
    (∀ (files : List String) (base : String) (f : String),
      f ∈ datelessCandidates files base ↔
        f ∈ files ∧ pyStartsWith f base = true ∧ pyEndsWith f ".log" = true) ∧
    (∀ (dir : SftpDir) (dirpath base ds : String) (d : Date),
      ds ≠ "" → safe_parse_date ds = .ok d →
      datedCandidates dir.files base d ≠ [] →
      ∃ c ∈ datedCandidates dir.files base d,
        sftp_find_latest_log dir dirpath base (some ds)
          = .ok (some (path_join dirpath c)) ∧
        ∀ g ∈ datedCandidates dir.files base d,
          dir.mtime (path_join dirpath g) ≤ dir.mtime (path_join dirpath c)) ∧
    (∀ (dir : SftpDir) (dirpath base : String),
      datelessCandidates dir.files base ≠ [] →
      ∃ c ∈ datelessCandidates dir.files base,
        sftp_find_latest_log dir dirpath base none
          = .ok (some (path_join dirpath c)) ∧
        ∀ g ∈ datelessCandidates dir.files base,
          dir.mtime (path_join dirpath g) ≤ dir.mtime (path_join dirpath c)) ∧
    sftp_find_latest_log exDir "/var/log/app" "app" (some "03-04-2024")
      = .ok (some "/var/log/app/app-03-04-2024.log.1") ∧
    sftp_find_latest_log exDir "/var/log/app" "app" none
      = .ok (some "/var/log/app/app-01-04-2024.log") := by
  refine ⟨?_, ?_, ?_, ?_, by decide, by decide⟩
  · intro files base d f
    simp [datedCandidates, List.mem_filter]
  · intro files base f
    simp [datelessCandidates, List.mem_filter]
  · intro dir dirpath base ds d hds hparse hcand
    refine ⟨(sortDesc (fun f => dir.mtime (path_join dirpath f))
      (datedCandidates dir.files base d)).headD "", ?_, ?_, ?_⟩
    · exact sortDesc_headD_mem _ _ _ hcand
    · exact find_latest_dated dir dirpath base ds d hds hparse hcand
    · intro g hg
      exact sortDesc_headD_max (fun f => dir.mtime (path_join dirpath f)) "" _ g hg
  · intro dir dirpath base hcand
    refine ⟨(sortDesc (fun f => dir.mtime (path_join dirpath f))
      (datelessCandidates dir.files base)).headD "", ?_, ?_, ?_⟩
    · exact sortDesc_headD_mem _ _ _ hcand
    · exact find_latest_dateless dir dirpath base hcand
    · intro g hg
      exact sortDesc_headD_max (fun f => dir.mtime (path_join dirpath f)) "" _ g hg

/-- C1, witness: the general dated clause instantiated at the worked
example directory and date `03-04-2024`, discharging all hypotheses by
evaluation. -/
theorem C1_strategyA_locate_witness :
    ("03-04-2024" ≠ "" ∧
      safe_parse_date "03-04-2024" = .ok ⟨2024, 4, 3⟩ ∧
      datedCandidates exDir.files "app" ⟨2024, 4, 3⟩ ≠ []) ∧
    (∃ c ∈ datedCandidates exDir.files "app" ⟨2024, 4, 3⟩,
      sftp_find_latest_log exDir "/var/log/app" "app" (some "03-04-2024")
        = .ok (some (path_join "/var/log/app" c)) ∧
      ∀ g ∈ datedCandidates exDir.files "app" ⟨2024, 4, 3⟩,
        exDir.mtime (path_join "/var/log/app" g)
          ≤ exDir.mtime (path_join "/var/log/app" c)) :=
  ⟨⟨by decide, by decide, by decide⟩,
    C1_strategyA_locate.2.2.1 exDir "/var/log/app" "app" "03-04-2024"
      ⟨2024, 4, 3⟩ (by decide) (by decide) (by decide)⟩

/-- The remote directory used for C10's concrete part: only rotated and
compressed variants are present, no file ending exactly in `.log`. -/
def rotDir : SftpDir where
  files := ["app-03-04-2024.log.1", "app-03-04-2024.log.gz"]
  mtime := fun _ => 0

/-- C10: a dateless locate only ever returns a file whose name ends exactly
in `".log"`: whenever it returns a path, that path is the directory join of
a listed filename ending in `".log"`; rotated or compressed names such as
`app-03-04-2024.log.1` or `app-03-04-2024.log.gz` fail that suffix test, so
a directory holding only such variants yields `None` on a dateless locate,
while a dated locate may return them through its prefix-only match. -/
theorem C10_dateless_log_suffix :
    (∀ (dir : SftpDir) (dirpath base p : String),
      sftp_find_latest_log dir dirpath base none = .ok (some p) →
      ∃ c ∈ dir.files, pyEndsWith c ".log" = true ∧ p = path_join dirpath c) ∧
    pyEndsWith "app-03-04-2024.log.1" ".log" = false ∧
    pyEndsWith "app-03-04-2024.log.gz" ".log" = false ∧
    sftp_find_latest_log rotDir "/var/log/app" "app" none = .ok none ∧
    sftp_find_latest_log rotDir "/var/log/app" "app" (some "03-04-2024")
      = .ok (some "/var/log/app/app-03-04-2024.log.1") := by
  refine ⟨?_, by decide, by decide, by decide, by decide⟩
  intro dir dirpath base p hret
  by_cases hcand : datelessCandidates dir.files base = []
  · exfalso
    by_cases hfe : dir.files = []
    · have h1 : dir.files.isEmpty = true := by simp [hfe]
      rw [sftp_find_latest_log, if_pos h1] at hret
      cases hret
    · have h1 : dir.files.isEmpty = false := isEmpty_false_of_ne_nil hfe
      have h3 : (datelessCandidates dir.files base).isEmpty = true := by
        simp [hcand]
      rw [sftp_find_latest_log] at hret
      simp [h1, strTruthy, Bind.bind, Except.bind, Pure.pure, Except.pure, h3] at hret
  · have heq := find_latest_dateless dir dirpath base hcand
    rw [heq] at hret
    have hmem := sortDesc_headD_mem
      (fun f => dir.mtime (path_join dirpath f)) "" _ hcand
    refine ⟨(sortDesc (fun f => dir.mtime (path_join dirpath f))
        (datelessCandidates dir.files base)).headD "", ?_, ?_, ?_⟩
    · exact (List.mem_filter.mp hmem).1
    · have := (List.mem_filter.mp hmem).2
      simp only [Bool.and_eq_true] at this
      exact this.2
    · cases hret
      rfl

/-- C10, witness: the general clause instantiated at the worked example
directory, whose dateless locate returns `app-01-04-2024.log`. -/
theorem C10_dateless_log_suffix_witness :
    ∃ c ∈ exDir.files, pyEndsWith c ".log" = true ∧
      "/var/log/app/app-01-04-2024.log" = path_join "/var/log/app" c :=
  C10_dateless_log_suffix.1 exDir "/var/log/app" "app"
    "/var/log/app/app-01-04-2024.log" (by decide)

/-- Example `config.xml` contents: project `billing`, module `api`, with no
module-level `server`/`user` attribute. -/
def cfgEx : String → Option (String → Option ModuleConfig) := fun p =>
  if p == "billing" then
    some (fun m =>
      if m == "api" then some ⟨none, none, some "/var/log/app", some "app"⟩
      else none)
  else none

/-- Example `credentials.xml` contents for `cfgEx`: a credential entry for
`billing` whose `host` and `user` attributes are absent. -/
def credsEx : String → Option Cred := fun p =>
  if p == "billing" then some ⟨none, none, some "secret"⟩ else none

/-- C2 counterexample: the route performs no non-emptiness check on the
resolved `host`/`user`.  With module `billing/api` present in the registry
but with both the module-level and the credential-level `host`/`user`
absent, resolution *succeeds* with empty (`None`) host and user, and no
configuration error is produced; separately, a pair present in the config
registry whose project is missing from the credential registry fails with
the project-not-found error even though the pair is in the registry. -/
theorem C2_counterexample :
    resolve_config cfgEx credsEx (some "billing") (some "api")
      = .resolved none none (some "secret") (some "/var/log/app") (some "app") ∧
    strTruthy none = false ∧
    resolve_config cfgEx (fun _ => none) (some "billing") (some "api")
      = .projectNotFound := by
  decide

/-- C2 amended: for every (project, module) pair present in **both** the
config registry and the credential registry, resolution succeeds and yields
`host = module server or credential host` and
`user = module user or credential user` (module-level value when truthy,
credential fallback otherwise), with the credential password; no emptiness
check is performed, so `host`/`user` may resolve to `None` without any
configuration error — the failure then surfaces later, at connect time, as
a transport error. -/
theorem C2_amended_resolution (config : String → Option (String → Option ModuleConfig))
    (creds : String → Option Cred) (p m : String)
    (mods : String → Option ModuleConfig) (mc : ModuleConfig) (cred : Cred)
    (hp : p ≠ "") (hm : m ≠ "")
    (h1 : config p = some mods) (h2 : mods m = some mc)
    (h3 : creds p = some cred) :
    resolve_config config creds (some p) (some m)
      = .resolved (pyOr mc.server cred.host) (pyOr mc.user cred.user)
          cred.password mc.path mc.base := by
  rw [resolve_config]
  rw [if_neg]
  · simp only [Option.getD_some, h1, h3, h2]
  · simp [strTruthy, hp, hm]

/-- C2 amended, witness: the amended resolution applied to the example
registries, yielding empty host and user with no error. -/
theorem C2_amended_resolution_witness :
    resolve_config cfgEx credsEx (some "billing") (some "api")
      = .resolved (pyOr none none) (pyOr none none) (some "secret")
          (some "/var/log/app") (some "app") :=
  C2_amended_resolution cfgEx credsEx "billing" "api"
    (fun m => if m == "api" then some ⟨none, none, some "/var/log/app", some "app"⟩
      else none)
    ⟨none, none, some "/var/log/app", some "app"⟩ ⟨none, none, some "secret"⟩
    (by decide) (by decide) rfl rfl rfl

/-- C7: the archive decision of the route.  For every fetched local file,
if its size is strictly greater than `MAX_ZIP_MB * 1024 * 1024` (20 MiB)
bytes, the result is a zip archive `local_temp ++ ".zip"` containing exactly
the file's base name, the uncompressed original no longer exists, and
`isArchive` is true; when the size is at most the threshold the original
path is returned unchanged with `isArchive` false. -/
theorem C7_archive_threshold (lt : String) (size : Nat) (fs : String → Bool) :
    (size > 20 * 1024 * 1024 →
      (archive_decision lt size fs).isArchive = true ∧
      (archive_decision lt size fs).to_send = lt ++ ".zip" ∧
      (archive_decision lt size fs).fs lt = false ∧
      (archive_decision lt size fs).fs (lt ++ ".zip") = true ∧
      (archive_decision lt size fs).zipContents = [basename lt]) ∧
    (size ≤ 20 * 1024 * 1024 →
      (archive_decision lt size fs).isArchive = false ∧
      (archive_decision lt size fs).to_send = lt ∧
      (archive_decision lt size fs).fs = fs ∧
      (archive_decision lt size fs).zipContents = []) := by
  have hzip : (".zip" : String).length = 4 := rfl
  have hne : lt ≠ lt ++ ".zip" := by
    intro h
    have hl := congrArg String.length h
    rw [String.length_append, hzip] at hl
    omega
  constructor
  · intro h
    have hgt : size > MAX_ZIP_MB * 1024 * 1024 := h
    simp [archive_decision, if_pos hgt, setFile, beq_eq_false_iff_ne.mpr hne]
  · intro h
    have hng : ¬ size > MAX_ZIP_MB * 1024 * 1024 := by
      simp only [MAX_ZIP_MB]
      omega
    simp [archive_decision, if_neg hng]

/-- C7, witness: a 25 MiB file is archived (original gone, archive present,
containing the base name); a 5 MiB file is served unchanged. -/
theorem C7_archive_threshold_witness :
    (25 * 1024 * 1024 > 20 * 1024 * 1024 ∧
      (archive_decision "temp_downloads/170.5_app.log" (25 * 1024 * 1024)
        (fun p => p == "temp_downloads/170.5_app.log")).isArchive = true ∧
      (archive_decision "temp_downloads/170.5_app.log" (25 * 1024 * 1024)
        (fun p => p == "temp_downloads/170.5_app.log")).to_send
        = "temp_downloads/170.5_app.log" ++ ".zip" ∧
      (archive_decision "temp_downloads/170.5_app.log" (25 * 1024 * 1024)
        (fun p => p == "temp_downloads/170.5_app.log")).fs
        "temp_downloads/170.5_app.log" = false ∧
      (archive_decision "temp_downloads/170.5_app.log" (25 * 1024 * 1024)
        (fun p => p == "temp_downloads/170.5_app.log")).fs
        ("temp_downloads/170.5_app.log" ++ ".zip") = true ∧
      (archive_decision "temp_downloads/170.5_app.log" (25 * 1024 * 1024)
        (fun p => p == "temp_downloads/170.5_app.log")).zipContents
        = [basename "temp_downloads/170.5_app.log"]) ∧
    (5 * 1024 * 1024 ≤ 20 * 1024 * 1024 ∧
      (archive_decision "temp_downloads/170.5_app.log" (5 * 1024 * 1024)
        (fun p => p == "temp_downloads/170.5_app.log")).isArchive = false ∧
      (archive_decision "temp_downloads/170.5_app.log" (5 * 1024 * 1024)
        (fun p => p == "temp_downloads/170.5_app.log")).to_send
        = "temp_downloads/170.5_app.log") :=
  ⟨⟨by norm_num,
    (C7_archive_threshold "temp_downloads/170.5_app.log" (25 * 1024 * 1024)
      (fun p => p == "temp_downloads/170.5_app.log")).1 (by norm_num)⟩,
   ⟨by norm_num,
    have h := (C7_archive_threshold "temp_downloads/170.5_app.log" (5 * 1024 * 1024)
      (fun p => p == "temp_downloads/170.5_app.log")).2 (by norm_num)
    ⟨h.1, h.2.1⟩⟩⟩

/-- C3 counterexample: when `sftp.get` fails after partially writing the
local temporary file, the route returns the 500 error with the partial file
still present at the temporary path — no deletion happens on the error
path (the only local deletion, app.py lines 236-241, runs after a
successful send and targets the served file). -/
theorem C3_counterexample :
    (fetch_phase ⟨.ok, .failsMidWrite, false, false⟩
      "temp_downloads/170.5_app-01-04-2024.log" (fun _ => false)).2.2
      = .httpError500 ∧
    (fetch_phase ⟨.ok, .failsMidWrite, false, false⟩
      "temp_downloads/170.5_app-01-04-2024.log" (fun _ => false)).2.1
      "temp_downloads/170.5_app-01-04-2024.log" = true := by
  decide

/-- C3 amended: if the fetch step fails after a partial local write, the
pipeline returns the error **without** deleting the partially-written file:
the file remains at the local temporary path when the error result is
produced. -/
theorem C3_amended_partial_file_remains (fate : FetchFate) (lt : String)
    (fs : String → Bool) (h1 : fate.connect = .ok)
    (h2 : fate.outcome = .failsMidWrite) :
    (fetch_phase fate lt fs).2.2 = .httpError500 ∧
    (fetch_phase fate lt fs).2.1 lt = true := by
  rcases fate with ⟨c, o, scr, tcr⟩
  simp only at h1 h2
  subst h1
  subst h2
  cases scr <;> simp [fetch_phase, close_block, setFile]

/-- C3 amended, witness: the amended statement at a concrete mid-write
failure on an initially empty local filesystem. -/
theorem C3_amended_partial_file_remains_witness :
    (fetch_phase ⟨.ok, .failsMidWrite, true, false⟩
      "temp_downloads/170.6_app-01-04-2024.log" (fun _ => false)).2.2
      = .httpError500 ∧
    (fetch_phase ⟨.ok, .failsMidWrite, true, false⟩
      "temp_downloads/170.6_app-01-04-2024.log" (fun _ => false)).2.1
      "temp_downloads/170.6_app-01-04-2024.log" = true :=
  C3_amended_partial_file_remains ⟨.ok, .failsMidWrite, true, false⟩
    "temp_downloads/170.6_app-01-04-2024.log" (fun _ => false) rfl rfl

/-- C5: zero matching files is the non-error outcome.  Whenever the
connection succeeds and no remote operation raises, a locate whose listing
is empty or whose candidate set is empty produces the `notFound` result
(the 404 answer), never the 500 transport error; an empty listing always
makes the locator return `None`; and the 500 result can only arise from a
connect failure or a raising remote operation. -/
theorem C5_notfound_not_transport (fate : SessionFate) (dir : SftpDir)
    (dirpath base : String) (ds : Option String)
    (h1 : fate.connect = .ok) (h2 : fate.opRaises = false)
    (h3 : sftp_find_latest_log dir dirpath base ds = .ok none) :
    (locate_phase fate dir dirpath base ds).2 = .notFound ∧
    (∀ (mt : String → Nat) (dp b : String) (s : Option String),
      sftp_find_latest_log ⟨[], mt⟩ dp b s = .ok none) ∧
    (∀ (f : SessionFate) (d : SftpDir) (dp b : String) (s : Option String),
      (locate_phase f d dp b s).2 = .httpError500 →
      f.connect ≠ ConnectOutcome.ok ∨ f.opRaises = true) := by
  refine ⟨?_, ?_, ?_⟩
  · rcases fate with ⟨c, op, scr, tcr⟩
    simp only at h1 h2
    subst h1
    subst h2
    simp [locate_phase, h3]
  · intro mt dp b s
    simp [sftp_find_latest_log]
  · intro f d dp b s h
    rcases f with ⟨c, op, scr, tcr⟩
    cases c
    · exact Or.inl (by simp)
    · exact Or.inl (by simp)
    · exact Or.inl (by simp)
    · cases op
      · exfalso
        cases hsp : sftp_find_latest_log d dp b s with
        | error e => simp [locate_phase, hsp] at h
        | ok v => cases v <;> simp [locate_phase, hsp] at h
      · exact Or.inr rfl

/-- C5, witness: the empty remote directory, with a healthy connection,
yields `notFound` and the locator returns `None`. -/
theorem C5_notfound_not_transport_witness :
    (locate_phase ⟨.ok, false, false, false⟩ ⟨[], fun _ => 0⟩
      "/var/log/app" "app" none).2 = .notFound ∧
    sftp_find_latest_log ⟨[], fun _ => 0⟩ "/var/log/app" "app" none = .ok none :=
  ⟨(C5_notfound_not_transport ⟨.ok, false, false, false⟩ ⟨[], fun _ => 0⟩
      "/var/log/app" "app" none rfl rfl (by decide)).1,
    by decide⟩

/-- C6 counterexample: `close()` is *not* invoked on every exit path.  When
`SFTPClient.from_transport` raises inside `sftp_connect` — after
`paramiko.Transport` was created and `transport.connect` succeeded, i.e.
after a transport session was opened — the route's `finally` block hits a
`NameError` on the unbound `sftp` name, swallowed by the bare `except`, so
neither `sftp.close()` nor `transport.close()` is ever attempted: the
connected transport is abandoned unclosed.  The trace of the locate phase
under that behaviour contains the create and connect events and no close
attempt. -/
theorem C6_counterexample :
    (locate_phase ⟨.sftpClientFails, false, false, false⟩
      ⟨["app-01-04-2024.log"], fun _ => 0⟩ "/var/log/app" "app" none).1
      = [.transportCreate, .transportConnect] ∧
    Ev.sftpCloseTry ∉ (locate_phase ⟨.sftpClientFails, false, false, false⟩
      ⟨["app-01-04-2024.log"], fun _ => 0⟩ "/var/log/app" "app" none).1 ∧
    Ev.transportCloseTry ∉ (locate_phase ⟨.sftpClientFails, false, false, false⟩
      ⟨["app-01-04-2024.log"], fun _ => 0⟩ "/var/log/app" "app" none).1 ∧
    (locate_phase ⟨.sftpClientFails, false, false, false⟩
      ⟨["app-01-04-2024.log"], fun _ => 0⟩ "/var/log/app" "app" none).2
      = .httpError500 := by
  decide

/-- C6 amended: for every session whose connect fully succeeds,
`sftp.close()` is attempted on every exit path of the locate phase, and —
provided `sftp.close()` itself does not raise — `transport.close()` too;
failures during close are swallowed: the phase result never depends on the
close-failure flags.  The same holds for the fetch phase, where the close
calls are attempted on every path (the names are still bound there even
when the new connect fails).  When the connect fails partway, however, the
locate phase makes no close attempt at all (the counterexample). -/
theorem C6_amended_close_paths (fate : SessionFate) (dir : SftpDir)
    (dirpath base : String) (ds : Option String)
    (h : fate.connect = .ok) :
    Ev.sftpCloseTry ∈ (locate_phase fate dir dirpath base ds).1 ∧
    (fate.sftpCloseRaises = false →
      Ev.transportCloseTry ∈ (locate_phase fate dir dirpath base ds).1) ∧
    (∀ b1 b2 : Bool,
      (locate_phase ⟨fate.connect, fate.opRaises, b1, b2⟩ dir dirpath base ds).2
        = (locate_phase fate dir dirpath base ds).2) ∧
    (∀ (ffate : FetchFate) (lt : String) (fs : String → Bool),
      Ev.sftpCloseTry ∈ (fetch_phase ffate lt fs).1 ∧
      (ffate.sftpCloseRaises = false →
        Ev.transportCloseTry ∈ (fetch_phase ffate lt fs).1) ∧
      (∀ b1 b2 : Bool,
        (fetch_phase ⟨ffate.connect, ffate.outcome, b1, b2⟩ lt fs).2
          = (fetch_phase ffate lt fs).2)) := by
  rcases fate with ⟨c, op, scr, tcr⟩
  simp only at h
  subst h
  refine ⟨?_, ?_, ?_, ?_⟩
  · cases op
    · cases hsp : sftp_find_latest_log dir dirpath base ds with
      | error e => cases scr <;> simp [locate_phase, hsp, close_block]
      | ok v => cases v <;> cases scr <;> simp [locate_phase, hsp, close_block]
    · cases scr <;> simp [locate_phase, close_block]
  · intro hscr
    simp only at hscr
    subst hscr
    cases op
    · cases hsp : sftp_find_latest_log dir dirpath base ds with
      | error e => simp [locate_phase, hsp, close_block]
      | ok v => cases v <;> simp [locate_phase, hsp, close_block]
    · simp [locate_phase, close_block]
  · intro b1 b2
    cases op
    · cases hsp : sftp_find_latest_log dir dirpath base ds with
      | error e => simp [locate_phase, hsp]
      | ok v => cases v <;> simp [locate_phase, hsp]
    · simp [locate_phase]
  · intro ffate lt fs
    rcases ffate with ⟨fc, fo, fscr, ftcr⟩
    refine ⟨?_, ?_, ?_⟩
    · cases fc <;> cases fo <;> cases fscr <;>
        simp [fetch_phase, close_block]
    · intro hscr
      simp only at hscr
      subst hscr
      cases fc <;> cases fo <;> simp [fetch_phase, close_block]
    · intro b1 b2
      cases fc <;> cases fo <;> simp [fetch_phase]

/-- C6 amended, witness: with a healthy connection and no raising close, the
locate phase's trace contains both close attempts. -/
theorem C6_amended_close_paths_witness :
    Ev.sftpCloseTry ∈ (locate_phase ⟨.ok, false, false, false⟩
      ⟨["app-01-04-2024.log"], fun _ => 0⟩ "/var/log/app" "app" none).1 ∧
    Ev.transportCloseTry ∈ (locate_phase ⟨.ok, false, false, false⟩
      ⟨["app-01-04-2024.log"], fun _ => 0⟩ "/var/log/app" "app" none).1 :=
  ⟨(C6_amended_close_paths ⟨.ok, false, false, false⟩
      ⟨["app-01-04-2024.log"], fun _ => 0⟩ "/var/log/app" "app" none rfl).1,
    (C6_amended_close_paths ⟨.ok, false, false, false⟩
      ⟨["app-01-04-2024.log"], fun _ => 0⟩ "/var/log/app" "app" none rfl).2.1 rfl⟩

/-- C9 counterexample: with an unparseable date string, the invalid-date
error (the 400 response) is produced only *after* a transport session has
been opened and the remote directory listed: the date is parsed inside
`sftp_find_latest_log`, which runs after `sftp_connect`, and the trace
shows create/connect/open and the listing before the date parse.  Moreover,
with an empty remote directory the invalid date is never even detected: the
locator returns `None` before parsing and the route answers 404. -/
theorem C9_counterexample :
    (locate_phase ⟨.ok, false, false, false⟩
      ⟨["app-01-04-2024.log"], fun _ => 0⟩ "/var/log/app" "app"
      (some "not-a-date")).2 = .httpError400 ∧
    (locate_phase ⟨.ok, false, false, false⟩
      ⟨["app-01-04-2024.log"], fun _ => 0⟩ "/var/log/app" "app"
      (some "not-a-date")).1
      = [.transportCreate, .transportConnect, .sftpOpen, .listDir, .dateParse,
         .sftpCloseTry, .transportCloseTry] ∧
    (locate_phase ⟨.ok, false, false, false⟩ ⟨[], fun _ => 0⟩
      "/var/log/app" "app" (some "not-a-date")).2 = .notFound := by
  decide

/-- C9 amended: an unparseable date string still yields the invalid-date
error (the 400 response), but only after the session is opened and the
directory listed — the date parse event sits after the connect and listing
events in the trace — and only when the listing is non-empty; with an empty
listing the invalid date goes unnoticed and the result is `notFound`. -/
theorem C9_amended_date_after_connect (fate : SessionFate) (dir : SftpDir)
    (dirpath base ds : String)
    (h1 : fate.connect = .ok) (h2 : fate.opRaises = false)
    (h3 : dir.files ≠ []) (h4 : ds ≠ "")
    (h5 : safe_parse_date ds = .error .invalidDateFormat) :
    (locate_phase fate dir dirpath base (some ds)).2 = .httpError400 ∧
    (∃ pre post, (locate_phase fate dir dirpath base (some ds)).1
        = pre ++ [Ev.dateParse] ++ post ∧
      Ev.transportCreate ∈ pre ∧ Ev.transportConnect ∈ pre ∧
      Ev.listDir ∈ pre) ∧
    (∀ mt : String → Nat,
      (locate_phase fate ⟨[], mt⟩ dirpath base (some ds)).2 = .notFound) := by
  rcases fate with ⟨c, op, scr, tcr⟩
  simp only at h1 h2
  subst h1
  subst h2
  have herr := find_latest_date_error dir dirpath base ds h3 h4 h5
  refine ⟨?_, ?_, ?_⟩
  · simp [locate_phase, herr]
  · refine ⟨[.transportCreate, .transportConnect, .sftpOpen, .listDir],
      close_block true scr, ?_, by simp, by simp, by simp⟩
    have hfe : dir.files.isEmpty = false := isEmpty_false_of_ne_nil h3
    have hts : strTruthy (some ds) = true := strTruthy_some_of_ne h4
    simp [locate_phase, herr, hfe, hts]
  · intro mt
    simp [locate_phase, sftp_find_latest_log]

/-- C9 amended, witness: the amended statement at the concrete unparseable
date `"nope"` over a one-file directory. -/
theorem C9_amended_date_after_connect_witness :
    (locate_phase ⟨.ok, false, true, false⟩
      ⟨["app-02-04-2024.log"], fun _ => 0⟩ "/var/log/app" "app"
      (some "nope")).2 = .httpError400 ∧
    (∃ pre post, (locate_phase ⟨.ok, false, true, false⟩
        ⟨["app-02-04-2024.log"], fun _ => 0⟩ "/var/log/app" "app"
        (some "nope")).1 = pre ++ [Ev.dateParse] ++ post ∧
      Ev.transportCreate ∈ pre ∧ Ev.transportConnect ∈ pre ∧
      Ev.listDir ∈ pre) ∧
    (∀ mt : String → Nat,
      (locate_phase ⟨.ok, false, true, false⟩ ⟨[], mt⟩
        "/var/log/app" "app" (some "nope")).2 = .notFound) :=
  C9_amended_date_after_connect ⟨.ok, false, true, false⟩
    ⟨["app-02-04-2024.log"], fun _ => 0⟩ "/var/log/app" "app" "nope"
    rfl rfl (by decide) (by decide) (by decide)

end LogApp
